import Mathlib

/-!
# Shopping-website order service: a shallow embedding

This file embeds the order-service request handlers of the shopping-website
backend (an Express/MySQL application) and proves the checkout-workflow
properties stated in its specification.

Modelling conventions:

* All DECIMAL(10,2) money columns hold exact multiples of 0.01, so they are
  represented as exact integer **cents** (`Int`).
* JavaScript `Number` arithmetic (the handler sums line subtotals with
  `reduce((sum, item) => sum + parseFloat(item.subtotal), 0)`) is modelled
  exactly: an IEEE binary64 value is a dyadic rational `m * 2^e`, kept as the
  structure `FP`, and every operation rounds the exact result to the nearest
  representable value (ties to even), as the hardware does.  Overflow to
  infinity and NaN are outside the range of interest and are not modelled.
* SQL tables are lists of rows in iteration order; AUTO_INCREMENT ids and
  timestamps that no claim mentions are omitted.  The orders AUTO_INCREMENT
  counter is kept, since the new order id appears in the response.
* Request-body fields arrive as JSON values (`JSVal`); the handler's
  truthiness test, JavaScript strict equality against column values, and
  MySQL's numeric coercion of string parameters are each modelled.
* The transaction discipline of POST /orders (every error path rolls back) is
  modelled by returning the unchanged database state on error paths.
-/

/-! ## IEEE binary64 arithmetic, exactly -/

/-- A binary floating-point value, represented exactly as `m * 2^e`. -/
structure FP where
  m : Int
  e : Int
deriving DecidableEq, Repr

/-- Is `2^e ≤ num/den`, for `num, den > 0`. -/
def pow2Le (num den : Int) (e : Int) : Bool :=
  if 0 ≤ e then den * 2 ^ e.toNat ≤ num else den ≤ num * 2 ^ (-e).toNat

/-- Binary exponent search: the largest `e` with `2^e ≤ num/den`
(fuel-bounded; 1200 steps cover the whole double range). -/
def findExp : Nat → Int → Int → Int → Int
  | 0, _, _, e => e
  | fuel+1, num, den, e =>
    if pow2Le num den (e+1) then findExp fuel num den (e+1)
    else if pow2Le num den e then e
    else findExp fuel num den (e-1)

/-- Round the positive fraction `num/den` to the nearest IEEE binary64 value
(round-to-nearest, ties-to-even), with subnormal clamping. -/
def flPos (num den : Int) : FP :=
  let e := findExp 1200 num den 0
  let u := max (e - 52) (-1074)
  let A := if 0 ≤ u then num else num * 2 ^ (-u).toNat
  let B := if 0 ≤ u then den * 2 ^ u.toNat else den
  let k := A / B
  let r := A - k * B
  let k2 :=
    if 2 * r < B then k
    else if B < 2 * r then k + 1
    else if k % 2 = 0 then k else k + 1
  ⟨k2, u⟩

/-- Round the fraction `num/den` (`den > 0`) to the nearest binary64 value. -/
def flFrac (num den : Int) : FP :=
  if num = 0 then ⟨0, 0⟩
  else if num < 0 then
    let f := flPos (-num) den
    ⟨-f.m, f.e⟩
  else flPos num den

/-- The exact value of an `FP` as a fraction (numerator, positive denominator). -/
def FP.toFrac (x : FP) : Int × Int :=
  if 0 ≤ x.e then (x.m * 2 ^ x.e.toNat, 1) else (x.m, 2 ^ (-x.e).toNat)

/-- JavaScript `+` on numbers: the exact sum, rounded to binary64. -/
def jsAdd (x y : FP) : FP :=
  flFrac (x.toFrac.1 * y.toFrac.2 + y.toFrac.1 * x.toFrac.2)
    (x.toFrac.2 * y.toFrac.2)

/-- `parseFloat` applied to the DECIMAL string of the exact cent amount
`c/100` (mysql2 returns DECIMAL columns as strings; `parseFloat` rounds the
decimal value to the nearest double). -/
def flCents (c : Int) : FP := flFrac c 100

/-- Does the `FP` value equal the exact fraction `num/den` (`den > 0`)? -/
def FP.eqFrac (x : FP) (num den : Int) : Prop :=
  x.toFrac.1 * den = num * x.toFrac.2

instance (x : FP) (num den : Int) : Decidable (x.eqFrac num den) := by
  unfold FP.eqFrac; infer_instance

/-- The checkout total exactly as the source computes it:
`cartItems.reduce((sum, item) => sum + parseFloat(item.subtotal), 0)`,
with the line subtotals given in exact cents. -/
def totalAmountFP (subtotals : List Int) : FP :=
  subtotals.foldl (fun s c => jsAdd s (flCents c)) ⟨0, 0⟩

/-- JavaScript `x.toFixed(2)`, as exact cents: round `x*100` to an integer,
ties toward the larger value (ECMA-262: "if there are two such n, pick the
larger n").  `⌊x*100 + 1/2⌋ = ⌊(2*num*100 + den) / (2*den)⌋`. -/
def FP.toFixed2 (x : FP) : Int :=
  Int.fdiv (2 * x.toFrac.1 * 100 + x.toFrac.2) (2 * x.toFrac.2)

/-- The cents MySQL stores when the double `x` is written to a DECIMAL(10,2)
column: rounded to 2 decimals, ties away from zero. -/
def FP.mysqlRound2 (x : FP) : Int :=
  if x.m < 0 then -(FP.toFixed2 ⟨-x.m, x.e⟩) else x.toFixed2

/-! ## Request-body values -/

/-- A JSON value as it arrives in a request-body field (the subset relevant
to these handlers). -/
inductive JSVal where
  | num (n : Int)
  | str (s : String)
  | null
  | undef
deriving DecidableEq, Repr

/-- JavaScript truthiness: `0`, `""`, `null` and `undefined` are falsy. -/
def truthy : JSVal → Bool
  | .num n => n != 0
  | .str s => s != ""
  | .null => false
  | .undef => false

/-- Decimal digits to a natural number. -/
def digitsToNat (ds : List Char) : Nat :=
  ds.foldl (fun a c => a * 10 + (c.toNat - 48)) 0

/-- MySQL numeric coercion of a string parameter (leading-numeric-prefix
parse): the value as a fraction `(num, den)`, `den > 0`.  Leading whitespace
is skipped, a sign and a decimal fraction are read, anything after the
numeric prefix is ignored (exponent notation is not modelled). -/
def mysqlNumOfString (s : String) : Int × Int :=
  let cs := s.toList.dropWhile (fun c => c == ' ' || c == '\t' || c == '\n' || c == '\r')
  let signed : Int × List Char :=
    match cs with
    | '-' :: rest => (-1, rest)
    | '+' :: rest => (1, rest)
    | _ => (1, cs)
  let ip := signed.2.takeWhile (·.isDigit)
  let rest := signed.2.dropWhile (·.isDigit)
  let frac :=
    match rest with
    | '.' :: r => r.takeWhile (·.isDigit)
    | _ => []
  (signed.1 * ((digitsToNat ip * 10 ^ frac.length + digitsToNat frac : Nat) : Int),
   ((10 ^ frac.length : Nat) : Int))

/-- The SQL predicate `int_column = ?` for a request-body parameter: MySQL
compares numerically, coercing a string parameter; a NULL parameter matches
no row. -/
def sqlIdEq (v : JSVal) (id : Int) : Bool :=
  match v with
  | .num n => n == id
  | .str s => (mysqlNumOfString s).1 == id * (mysqlNumOfString s).2
  | .null => false
  | .undef => false

/-- JavaScript strict equality `===` between a request-body value and an
integer read from an INT column (a string never strictly equals a number). -/
def jsStrictIntEq (v : JSVal) (n : Int) : Bool :=
  match v with
  | .num m => m == n
  | _ => false

/-- The integer MySQL stores when such a value is inserted into an INT
column (strings are coerced, then rounded half away from zero; `null` /
`undefined` never reach an insert here — the presence check filters them). -/
def mysqlIntOfVal : JSVal → Int
  | .num n => n
  | .str s =>
      let f := mysqlNumOfString s
      if f.1 < 0 then -(Int.fdiv (2 * (-f.1) + f.2) (2 * f.2))
      else Int.fdiv (2 * f.1 + f.2) (2 * f.2)
  | .null => 0
  | .undef => 0

/-! ## Database state -/

/-- A row of `users` (columns the order service never reads are omitted). -/
structure UserRow where
  id : Int
deriving DecidableEq, Repr

/-- A row of `products`.  `price` is DECIMAL(10,2), held in exact cents;
`stock_quantity` is a plain signed INT — the schema has no CHECK constraint
and no UNSIGNED marker. -/
structure ProductRow where
  id : Int
  name : String
  description : String
  price : Int
  stock_quantity : Int
deriving DecidableEq, Repr

/-- A row of `carts` (timestamps omitted). -/
structure CartRow where
  id : Int
  user_id : Int
  status : String
deriving DecidableEq, Repr

/-- A row of `cart_items` (auto id and timestamps omitted).
`price_at_addition` is DECIMAL(10,2), held in exact cents. -/
structure CartItemRow where
  cart_id : Int
  product_id : Int
  quantity : Int
  price_at_addition : Int
deriving DecidableEq, Repr

/-- A row of `orders` (timestamps omitted).  `total_amount` is
DECIMAL(10,2), held in exact cents. -/
structure OrderRow where
  id : Int
  user_id : Int
  cart_id : Int
  total_amount : Int
  status : String
  shipping_address : Option String
  payment_method : Option String
deriving DecidableEq, Repr

/-- A row of `order_items` (auto id and timestamp omitted); money in cents. -/
structure OrderItemRow where
  order_id : Int
  product_id : Int
  product_name : String
  quantity : Int
  price : Int
  subtotal : Int
deriving DecidableEq, Repr

/-- The database state the order service operates on.  Row lists are in
table iteration order; `next_order_id` is the orders AUTO_INCREMENT counter. -/
structure DB where
  users : List UserRow
  products : List ProductRow
  carts : List CartRow
  cart_items : List CartItemRow
  orders : List OrderRow
  order_items : List OrderItemRow
  next_order_id : Int
deriving DecidableEq, Repr

/-- Schema facts guaranteed by the surrounding services: `products.id` is a
primary key, and `cart_items` has `UNIQUE KEY unique_cart_product
(cart_id, product_id)`. -/
def DB.wf (db : DB) : Prop :=
  (db.products.map (·.id)).Nodup ∧
  (db.cart_items.map (fun ci => (ci.cart_id, ci.product_id))).Nodup

instance (db : DB) : Decidable db.wf := by
  unfold DB.wf; infer_instance

/-! ## POST /orders -/

/-- The body of a POST /orders request. -/
structure OrderReq where
  user_id : JSVal
  cart_id : JSVal
  shipping_address : Option String
  payment_method : Option String
deriving DecidableEq, Repr

/-- One row of the handler's cart-items/products join; `subtotal` is
`ci.quantity * ci.price_at_addition`, computed exactly by SQL on DECIMAL
values (cents here). -/
structure CartLineJoin where
  product_id : Int
  quantity : Int
  price_at_addition : Int
  product_name : String
  stock_quantity : Int
  subtotal : Int
deriving DecidableEq, Repr

/-- `SELECT ci.product_id, ci.quantity, ci.price_at_addition, p.name,
p.stock_quantity, (ci.quantity * ci.price_at_addition) AS subtotal FROM
cart_items ci JOIN products p ON ci.product_id = p.id WHERE ci.cart_id = ?`. -/
def cartItemsQuery (db : DB) (cv : JSVal) : List CartLineJoin :=
  (db.cart_items.filter (fun ci => sqlIdEq cv ci.cart_id)).flatMap (fun ci =>
    (db.products.filter (fun p => p.id == ci.product_id)).map (fun p =>
      { product_id := ci.product_id
        quantity := ci.quantity
        price_at_addition := ci.price_at_addition
        product_name := p.name
        stock_quantity := p.stock_quantity
        subtotal := ci.quantity * ci.price_at_addition }))

/-- `UPDATE products SET stock_quantity = stock_quantity - ? WHERE id = ?`:
the decrement is unconditional — the statement carries no
`stock_quantity >= ?` guard and never fails on a shortfall. -/
def updateProductStock (products : List ProductRow) (pid amount : Int) :
    List ProductRow :=
  products.map (fun p =>
    if p.id == pid then { p with stock_quantity := p.stock_quantity - amount }
    else p)

/-- The mutation loop's stock updates, one per joined cart line, in order. -/
def applyStockUpdates (products : List ProductRow) (items : List CartLineJoin) :
    List ProductRow :=
  items.foldl (fun ps it => updateProductStock ps it.product_id it.quantity)
    products

/-- An item of the 201 response (price and subtotal echo the DECIMAL strings
from the join; exact cents). -/
structure RespItem where
  product_id : Int
  product_name : String
  quantity : Int
  price : Int
  subtotal : Int
deriving DecidableEq, Repr

/-- The order object of the 201 response.  `total_amount` is the string
`totalAmount.toFixed(2)`, held as exact cents; `user_id` and `cart_id` echo
the raw request values. -/
structure OrderResp where
  id : Int
  user_id : JSVal
  cart_id : JSVal
  total_amount : Int
  status : String
  items : List RespItem
deriving DecidableEq, Repr

/-- The response of a POST /orders request (500-paths for storage failures
are outside the model; every store operation here is total). -/
inductive PlaceOrderResp where
  | err (status : Nat) (error : String)
  | errStock (status : Nat) (error : String) (product : String)
      (available : Int) (requested : Int)
  | ok (status : Nat) (order : OrderResp)
deriving DecidableEq, Repr

/-- The committed database state after a successful checkout: the inserted
order row, the inserted order_items rows, the stock decrements, and the cart
status flip — everything else untouched. -/
def successState (db : DB) (req : OrderReq) (items : List CartLineJoin) : DB :=
  { db with
    orders := db.orders ++
      [{ id := db.next_order_id
         user_id := mysqlIntOfVal req.user_id
         cart_id := mysqlIntOfVal req.cart_id
         total_amount := (totalAmountFP (items.map (·.subtotal))).mysqlRound2
         status := "pending"
         shipping_address := req.shipping_address
         payment_method := req.payment_method }]
    order_items := db.order_items ++ items.map (fun it =>
      { order_id := db.next_order_id
        product_id := it.product_id
        product_name := it.product_name
        quantity := it.quantity
        price := it.price_at_addition
        subtotal := it.subtotal })
    products := applyStockUpdates db.products items
    carts := db.carts.map (fun c =>
      if sqlIdEq req.cart_id c.id then { c with status := "ordered" } else c)
    next_order_id := db.next_order_id + 1 }

/-- The 201 response body of a successful checkout. -/
def successResponse (req : OrderReq) (orderId : Int)
    (items : List CartLineJoin) : OrderResp :=
  { id := orderId
    user_id := req.user_id
    cart_id := req.cart_id
    total_amount := (totalAmountFP (items.map (·.subtotal))).toFixed2
    status := "pending"
    items := items.map (fun it =>
      { product_id := it.product_id
        product_name := it.product_name
        quantity := it.quantity
        price := it.price_at_addition
        subtotal := it.subtotal }) }

/-- The POST /orders handler.  Every pre-commit exit rolls the transaction
back, so each error path returns the database unchanged. -/
def placeOrder (db : DB) (req : OrderReq) : PlaceOrderResp × DB :=
  if !(truthy req.user_id) || !(truthy req.cart_id) then
    (.err 400 "user_id and cart_id are required", db)
  else if (db.users.filter (fun u => sqlIdEq req.user_id u.id)).isEmpty then
    (.err 404 "User not found", db)
  else
    match db.carts.filter
        (fun c => sqlIdEq req.cart_id c.id && c.status == "active") with
    | [] => (.err 404 "Cart not found or not active", db)
    | cart :: _ =>
      if !(jsStrictIntEq req.user_id cart.user_id) then
        (.err 403 "Cart does not belong to this user", db)
      else if (cartItemsQuery db req.cart_id).isEmpty then
        (.err 400 "Cart is empty", db)
      else
        match (cartItemsQuery db req.cart_id).find?
            (fun it => it.stock_quantity < it.quantity) with
        | some it =>
            (.errStock 400 "Insufficient stock" it.product_name
              it.stock_quantity it.quantity, db)
        | none =>
            (.ok 201 (successResponse req db.next_order_id
                (cartItemsQuery db req.cart_id)),
             successState db req (cartItemsQuery db req.cart_id))

/-- Is a POST /orders response the success (201) shape? -/
def PlaceOrderResp.isOk : PlaceOrderResp → Bool
  | .ok _ _ => true
  | _ => false

/-- The validation stages of POST /orders that precede the stock check:
present ids, user exists, cart found active, cart owned by the caller,
cart not empty. -/
def preStockChecksPass (db : DB) (req : OrderReq) : Bool :=
  truthy req.user_id && truthy req.cart_id &&
  !(db.users.filter (fun u => sqlIdEq req.user_id u.id)).isEmpty &&
  (match db.carts.filter
      (fun c => sqlIdEq req.cart_id c.id && c.status == "active") with
   | [] => false
   | cart :: _ => jsStrictIntEq req.user_id cart.user_id) &&
  !(cartItemsQuery db req.cart_id).isEmpty

/-! ## PUT /orders/:id/status -/

/-- The status whitelist of PUT /orders/:id/status. -/
def validStatuses : List String :=
  ["pending", "processing", "shipped", "delivered", "cancelled"]

/-- The response of a PUT /orders/:id/status request. -/
inductive UpdateStatusResp where
  | err (status : Nat) (error : String)
  | ok (status : Nat) (newStatus : String)
deriving DecidableEq, Repr

/-- The PUT /orders/:id/status handler.  `affectedRows` counts matched rows
(mysql2 connects with CLIENT_FOUND_ROWS), so re-setting the current status
still matches and succeeds. -/
def updateOrderStatus (db : DB) (orderId : Int) (status : String) :
    UpdateStatusResp × DB :=
  if !(validStatuses.contains status) then
    (.err 400 "Invalid status", db)
  else
    let db2 := { db with orders := db.orders.map (fun o =>
      if o.id == orderId then { o with status := status } else o) }
    if (db.orders.filter (fun o => o.id == orderId)).isEmpty then
      (.err 404 "Order not found", db2)
    else
      (.ok 200 status, db2)

/-! ## Concrete states used in witnesses and counterexamples -/

/-- A database with one user, two stocked products, and an active cart
holding (productA, qty 2, price 9.99) and (productB, qty 1, price 15.00). -/
def exampleDB : DB :=
  { users := [⟨1⟩]
    products := [⟨10, "productA", "", 999, 5⟩, ⟨11, "productB", "", 1500, 3⟩]
    carts := [⟨1, 1, "active"⟩]
    cart_items := [⟨1, 10, 2, 999⟩, ⟨1, 11, 1, 1500⟩]
    orders := []
    order_items := []
    next_order_id := 1 }

/-- The matching checkout request for `exampleDB`. -/
def exampleReq : OrderReq := ⟨.num 1, .num 1, some "addr", some "card"⟩

/-- `exampleDB` with the stock of both products below the cart quantities. -/
def shortStockDB : DB :=
  { exampleDB with
    products := [⟨10, "productA", "", 999, 1⟩, ⟨11, "productB", "", 1500, 0⟩] }

/-- `exampleDB` with the cart already checked out. -/
def orderedCartDB : DB :=
  { exampleDB with carts := [⟨1, 1, "ordered"⟩] }

/-- A database whose active cart holds one 0.10 line and one 0.20 line. -/
def dimeDB : DB :=
  { users := [⟨1⟩]
    products := [⟨10, "dimeA", "", 10, 5⟩, ⟨11, "dimeB", "", 20, 5⟩]
    carts := [⟨1, 1, "active"⟩]
    cart_items := [⟨1, 10, 1, 10⟩, ⟨1, 11, 1, 20⟩]
    orders := []
    order_items := []
    next_order_id := 1 }

/-- The dime checkout request. -/
def dimeReq : OrderReq := ⟨.num 1, .num 1, none, none⟩

/-- A database with a single pending order with id 1. -/
def orderDB : DB :=
  { users := [⟨1⟩]
    products := []
    carts := [⟨1, 1, "ordered"⟩]
    cart_items := []
    orders := [⟨1, 1, 1, 3498, "pending", none, none⟩]
    order_items := []
    next_order_id := 2 }

/-! ## Helper lemmas -/

/-- Every run of POST /orders either leaves the database unchanged (all
error paths roll back) or is the canonical success outcome. -/
theorem placeOrder_cases (db : DB) (req : OrderReq) :
    (placeOrder db req).2 = db ∨
    placeOrder db req =
      (.ok 201 (successResponse req db.next_order_id
          (cartItemsQuery db req.cart_id)),
       successState db req (cartItemsQuery db req.cart_id)) := by
  unfold placeOrder
  split
  · exact Or.inl rfl
  split
  · exact Or.inl rfl
  split
  · exact Or.inl rfl
  split
  · exact Or.inl rfl
  split
  · exact Or.inl rfl
  split
  · exact Or.inl rfl
  · exact Or.inr rfl

/-- Inversion of a successful POST /orders run. -/
theorem placeOrder_ok_inv (db : DB) (req : OrderReq) (st : Nat) (o : OrderResp)
    (db2 : DB) (h : placeOrder db req = (.ok st o, db2)) :
    st = 201 ∧
    o = successResponse req db.next_order_id (cartItemsQuery db req.cart_id) ∧
    db2 = successState db req (cartItemsQuery db req.cart_id) ∧
    (cartItemsQuery db req.cart_id).find?
      (fun it => it.stock_quantity < it.quantity) = none := by
  unfold placeOrder at h
  split at h
  · exact absurd h (by simp)
  split at h
  · exact absurd h (by simp)
  split at h
  · exact absurd h (by simp)
  split at h
  · exact absurd h (by simp)
  split at h
  · exact absurd h (by simp)
  split at h
  · exact absurd h (by simp)
  · rename_i hfind
    rw [Prod.mk.injEq] at h
    obtain ⟨h1, h2⟩ := h
    cases h1
    exact ⟨rfl, rfl, h2.symm, hfind⟩

/-- The denominator produced by MySQL's string-to-number coercion is positive. -/
theorem mysqlNumOfString_den_pos (s : String) : 0 < (mysqlNumOfString s).2 := by
  unfold mysqlNumOfString
  simp only []
  exact_mod_cast Nat.pos_pow_of_pos _ (by norm_num)

/-- A single request parameter matches at most one id value. -/
theorem sqlIdEq_unique (v : JSVal) (a b : Int)
    (ha : sqlIdEq v a = true) (hb : sqlIdEq v b = true) : a = b := by
  cases v with
  | num n =>
    simp only [sqlIdEq, beq_iff_eq] at ha hb
    omega
  | str s =>
    simp only [sqlIdEq, beq_iff_eq] at ha hb
    have hd := mysqlNumOfString_den_pos s
    have : a * (mysqlNumOfString s).2 = b * (mysqlNumOfString s).2 := by
      rw [← ha, ← hb]
    exact mul_right_cancel₀ (by omega) this
  | null => simp [sqlIdEq] at ha
  | undef => simp [sqlIdEq] at ha

/-- Every row of the cart-items/products join carries the exact SQL subtotal
`quantity * price_at_addition`. -/
theorem cartItemsQuery_subtotal (db : DB) (cv : JSVal) :
    ∀ it ∈ cartItemsQuery db cv,
      it.subtotal = it.quantity * it.price_at_addition := by
  intro it hit
  unfold cartItemsQuery at hit
  rw [List.mem_flatMap] at hit
  obtain ⟨ci, _, hit2⟩ := hit
  rw [List.mem_map] at hit2
  obtain ⟨p, _, rfl⟩ := hit2
  rfl

/-- Under the products primary key, each join row's `stock_quantity` is the
stock of the (unique) product row bearing its `product_id`. -/
theorem cartItemsQuery_stock_eq (db : DB) (cv : JSVal)
    (hw : (db.products.map (fun p => p.id)).Nodup) :
    ∀ it ∈ cartItemsQuery db cv, ∀ p ∈ db.products, p.id = it.product_id →
      p.stock_quantity = it.stock_quantity := by
  intro it hit p hp hpid
  unfold cartItemsQuery at hit
  rw [List.mem_flatMap] at hit
  obtain ⟨ci, _, hit2⟩ := hit
  rw [List.mem_map] at hit2
  obtain ⟨q, hq, rfl⟩ := hit2
  rw [List.mem_filter] at hq
  obtain ⟨hqmem, hqid⟩ := hq
  rw [beq_iff_eq] at hqid
  have hpq : p = q := by
    apply List.inj_on_of_nodup_map hw hp hqmem
    simpa [hqid] using hpid
  rw [hpq]

/-- Under the schema keys (products PK, cart_items UNIQUE (cart_id,
product_id)), the join rows of one checkout have pairwise distinct
product ids. -/
theorem cartItemsQuery_pairwise (db : DB) (cv : JSVal) (hw : db.wf) :
    (cartItemsQuery db cv).Pairwise
      (fun a b => a.product_id ≠ b.product_id) := by
  obtain ⟨hprod, hci⟩ := hw
  unfold cartItemsQuery
  rw [List.pairwise_flatMap]
  constructor
  · intro ci _
    rw [List.pairwise_map, List.pairwise_iff_forall_sublist]
    intro a b hab
    have hidnd : ((db.products.filter
        (fun p => p.id == ci.product_id)).map (fun p => p.id)).Nodup :=
      List.Nodup.sublist (List.Sublist.map _ (List.filter_sublist _)) hprod
    have hone : List.Sublist [a.id, b.id] ((db.products.filter
        (fun p => p.id == ci.product_id)).map (fun p => p.id)) := by
      simpa using hab.map (fun p => p.id)
    have hne : a.id ≠ b.id := List.pairwise_iff_forall_sublist.mp hidnd hone
    have hmem := hab.subset
    have ha : a ∈ db.products.filter (fun p => p.id == ci.product_id) :=
      hmem (by simp)
    have hb : b ∈ db.products.filter (fun p => p.id == ci.product_id) :=
      hmem (by simp)
    rw [List.mem_filter, beq_iff_eq] at ha hb
    exact False.elim (hne (ha.2.trans hb.2.symm))
  · have h1 : (db.cart_items.filter (fun ci => sqlIdEq cv ci.cart_id)).Pairwise
        (fun a b => (a.cart_id, a.product_id) ≠ (b.cart_id, b.product_id)) :=
      (List.pairwise_map.mp hci).filter _
    rw [List.pairwise_iff_forall_sublist]
    intro a b hab
    have hmem := hab.subset
    have ha := hmem (show a ∈ [a, b] by simp)
    have hb := hmem (show b ∈ [a, b] by simp)
    have hcart : a.cart_id = b.cart_id := by
      rw [List.mem_filter] at ha hb
      exact sqlIdEq_unique cv a.cart_id b.cart_id ha.2 hb.2
    have hne : (a.cart_id, a.product_id) ≠ (b.cart_id, b.product_id) :=
      List.pairwise_iff_forall_sublist.mp h1 hab
    intro x hx y hy
    rw [List.mem_map] at hx hy
    obtain ⟨p, _, rfl⟩ := hx
    obtain ⟨q, _, rfl⟩ := hy
    simp only [ne_eq]
    intro hpq
    exact hne (by rw [Prod.mk.injEq]; exact ⟨hcart, hpq⟩)

/-- With pairwise-distinct product ids, the per-line stock-update loop acts
as one pass over the products, decrementing each product by the quantity of
its (unique) matching line. -/
theorem applyStockUpdates_eq {items : List CartLineJoin}
    (hd : items.Pairwise (fun a b => a.product_id ≠ b.product_id)) :
    ∀ products : List ProductRow,
      applyStockUpdates products items = products.map (fun p =>
        match items.find? (fun it => it.product_id == p.id) with
        | some it => { p with stock_quantity := p.stock_quantity - it.quantity }
        | none => p) := by
  induction hd with
  | nil =>
    intro products
    simp [applyStockUpdates]
  | @cons it rest hhead htail ih =>
    intro products
    show applyStockUpdates products (it :: rest) = _
    unfold applyStockUpdates
    rw [List.foldl_cons]
    have hstep := ih (updateProductStock products it.product_id it.quantity)
    unfold applyStockUpdates at hstep
    rw [hstep]
    unfold updateProductStock
    rw [List.map_map]
    apply List.map_congr_left
    intro p _
    simp only [Function.comp]
    by_cases hpid : p.id = it.product_id
    · rw [List.find?_cons_of_pos _ (by rw [beq_iff_eq]; exact hpid.symm)]
      rw [if_pos (by rw [beq_iff_eq]; exact hpid)]
      have hnone : rest.find? (fun it2 =>
          it2.product_id == ({ p with
            stock_quantity := p.stock_quantity - it.quantity } : ProductRow).id) = none := by
        rw [List.find?_eq_none]
        intro x hx
        simp only [beq_iff_eq]
        intro hcontra
        exact hhead x hx (by rw [hcontra, hpid])
      rw [hnone]
    · rw [List.find?_cons_of_neg _ (by rw [beq_iff_eq]; exact fun hcontra => hpid hcontra.symm)]
      rw [if_neg (by rw [beq_iff_eq]; exact hpid)]

/-- The stock-update loop never changes a product's id, name, description
or price. -/
theorem applyStockUpdates_proj (items : List CartLineJoin) :
    ∀ products : List ProductRow,
      (applyStockUpdates products items).map
          (fun p => (p.id, p.name, p.description, p.price)) =
        products.map (fun p => (p.id, p.name, p.description, p.price)) := by
  induction items with
  | nil => intro products; rfl
  | cons it rest ih =>
    intro products
    unfold applyStockUpdates at ih ⊢
    rw [List.foldl_cons, ih]
    unfold updateProductStock
    rw [List.map_map]
    apply List.map_congr_left
    intro p _
    by_cases hpid : (p.id == it.product_id) = true
    · simp only [Function.comp, if_pos hpid]
    · simp only [Function.comp, if_neg hpid]

/-- After a successful checkout, no cart matching the checked-out cart id is
still `active`: the handler's cart query comes back empty on a retry. -/
theorem successState_cart_not_active (db : DB) (req : OrderReq)
    (items : List CartLineJoin) :
    (successState db req items).carts.filter
      (fun c => sqlIdEq req.cart_id c.id && c.status == "active") = [] := by
  unfold successState
  simp only []
  rw [List.filter_map]
  have hnil : db.carts.filter ((fun c =>
      sqlIdEq req.cart_id c.id && c.status == "active") ∘ (fun c =>
        if sqlIdEq req.cart_id c.id then { c with status := "ordered" }
        else c)) = [] := by
    rw [List.filter_eq_nil_iff]
    intro c _
    cases hcid : sqlIdEq req.cart_id c.id with
    | false => simp [Function.comp, hcid]
    | true => simp [Function.comp, hcid]
  rw [hnil]
  rfl

/-- POST /orders rejects a request whose user_id or cart_id is falsy, before
any lookup. -/
theorem placeOrder_invalid_input (db : DB) (req : OrderReq)
    (h : truthy req.user_id = false ∨ truthy req.cart_id = false) :
    placeOrder db req = (.err 400 "user_id and cart_id are required", db) := by
  have hc : (!truthy req.user_id || !truthy req.cart_id) = true := by
    rcases h with h | h <;> simp [h]
  unfold placeOrder
  rw [if_pos hc]

/-- If no cart row with the requested id is `active` — the id is unknown, or
the cart exists with some other status — POST /orders answers 404 "Cart not
found or not active". -/
theorem placeOrder_cart_404 (db : DB) (req : OrderReq)
    (h1 : truthy req.user_id = true) (h2 : truthy req.cart_id = true)
    (h3 : (db.users.filter (fun u => sqlIdEq req.user_id u.id)).isEmpty = false)
    (h4 : db.carts.filter
        (fun c => sqlIdEq req.cart_id c.id && c.status == "active") = []) :
    placeOrder db req = (.err 404 "Cart not found or not active", db) := by
  unfold placeOrder
  rw [if_neg (by simp [h1, h2]), if_neg (by simp [h3]), h4]

/-- When the pre-stock validations pass and the stock scan finds a short
line, POST /orders answers the 400 "Insufficient stock" error carrying that
line's product name, available stock and requested quantity, and rolls back. -/
theorem placeOrder_stock_err (db : DB) (req : OrderReq) (it : CartLineJoin)
    (hpre : preStockChecksPass db req = true)
    (hfind : (cartItemsQuery db req.cart_id).find?
        (fun x => x.stock_quantity < x.quantity) = some it) :
    placeOrder db req =
      (.errStock 400 "Insufficient stock" it.product_name it.stock_quantity
        it.quantity, db) := by
  unfold preStockChecksPass at hpre
  rw [Bool.and_eq_true, Bool.and_eq_true, Bool.and_eq_true, Bool.and_eq_true]
    at hpre
  obtain ⟨⟨⟨⟨h1, h2⟩, h3⟩, h4⟩, h5⟩ := hpre
  unfold placeOrder
  cases hc : db.carts.filter
      (fun c => sqlIdEq req.cart_id c.id && c.status == "active") with
  | nil => rw [hc] at h4; simp at h4
  | cons cart cs =>
    rw [hc] at h4
    simp only [] at h4
    rw [if_neg (by simp [h1, h2]), if_neg (by simp_all)]
    have h5b : (cartItemsQuery db req.cart_id).isEmpty = false := by
      simpa using h5
    simp [h4, h5b, hfind]

/-- A product matched by no cart line survives the stock-update loop as-is. -/
theorem applyStockUpdates_untouched (items : List CartLineJoin) :
    ∀ products : List ProductRow, ∀ p ∈ products,
      (∀ it ∈ items, it.product_id ≠ p.id) →
      p ∈ applyStockUpdates products items := by
  induction items with
  | nil => intro products p hp _; exact hp
  | cons it rest ih =>
    intro products p hp hno
    show p ∈ applyStockUpdates
      (updateProductStock products it.product_id it.quantity) rest
    apply ih
    · unfold updateProductStock
      have hfp : (fun q => if q.id == it.product_id then
          { q with stock_quantity := q.stock_quantity - it.quantity }
          else q) p = p := by
        apply if_neg
        intro hcontra
        rw [beq_iff_eq] at hcontra
        exact hno it (by simp) hcontra.symm
      exact hfp ▸ List.mem_map_of_mem _ hp
    · intro it2 hit2
      exact hno it2 (List.mem_cons_of_mem _ hit2)

/-- C1: every checkout request that fails any validation step receives an
error response and leaves the database exactly as it was — no order row, no
order_items rows, no stock decrement, and no cart status change. -/
theorem checkout_error_no_side_effect (db : DB) (req : OrderReq)
    (h : (placeOrder db req).1.isOk = false) :
    (placeOrder db req).2 = db := by
  rcases placeOrder_cases db req with h2 | h2
  · exact h2
  · rw [h2] at h
    simp [PlaceOrderResp.isOk] at h

/-- Witness for C1: a request naming the unknown user 99 fails and leaves
the concrete database untouched. -/
theorem checkout_error_no_side_effect_witness :
    (placeOrder exampleDB ⟨.num 99, .num 1, none, none⟩).1.isOk = false ∧
    (placeOrder exampleDB ⟨.num 99, .num 1, none, none⟩).2 = exampleDB :=
  ⟨by decide, checkout_error_no_side_effect exampleDB
    ⟨.num 99, .num 1, none, none⟩ (by decide)⟩

/-- C10: the presence check treats every falsy id value as missing — `0`,
`""`, `null` and `undefined` are rejected with 400 "user_id and cart_id are
required" before any lookup, whatever the database holds, instead of
reaching the user/cart existence checks and a 404. -/
theorem falsy_ids_rejected (db : DB) (req : OrderReq)
    (h : req.user_id ∈ [JSVal.num 0, JSVal.str "", JSVal.null, JSVal.undef] ∨
         req.cart_id ∈ [JSVal.num 0, JSVal.str "", JSVal.null, JSVal.undef]) :
    placeOrder db req = (.err 400 "user_id and cart_id are required", db) := by
  apply placeOrder_invalid_input
  rcases h with h | h
  · left
    simp only [List.mem_cons, List.not_mem_nil, or_false] at h
    rcases h with h | h | h | h <;> rw [h] <;> decide
  · right
    simp only [List.mem_cons, List.not_mem_nil, or_false] at h
    rcases h with h | h | h | h <;> rw [h] <;> decide

/-- Witness for C10: user_id 0 is rejected up front even though the database
would produce a cart miss otherwise. -/
theorem falsy_ids_rejected_witness :
    placeOrder exampleDB ⟨.num 0, .num 1, none, none⟩ =
      (.err 400 "user_id and cart_id are required", exampleDB) :=
  falsy_ids_rejected exampleDB ⟨.num 0, .num 1, none, none⟩ (by decide)

/-- C6 counterexample: with cart 1 existing but already `ordered`, checkout
answers 404 "Cart not found or not active" — not the claimed
InvalidState / HTTP 400 — because the cart query filters on
`status = "active"` and cannot tell a missing cart from an inactive one. -/
theorem inactive_cart_gets_404_not_400 :
    placeOrder orderedCartDB exampleReq =
      (.err 404 "Cart not found or not active", orderedCartDB) ∧
    (404 : Nat) ≠ 400 :=
  ⟨by decide, by decide⟩

/-- C6 (amended): checkout does not distinguish a missing cart from an
inactive one — whenever no cart with the requested id is `active` (unknown
id, or an existing cart with any other status, e.g. already checked out), it
answers 404 "Cart not found or not active" and rolls back; in particular a
second checkout against a just-ordered cart (same or different user) fails
that way, so no duplicate order, order lines or stock mutation occurs. -/
theorem cart_missing_or_inactive_both_404 :
    (∀ (db : DB) (req : OrderReq),
      truthy req.user_id = true → truthy req.cart_id = true →
      (db.users.filter (fun u => sqlIdEq req.user_id u.id)).isEmpty = false →
      db.carts.filter (fun c => sqlIdEq req.cart_id c.id &&
        c.status == "active") = [] →
      placeOrder db req = (.err 404 "Cart not found or not active", db)) ∧
    (∀ (db : DB) (req req2 : OrderReq) (st : Nat) (o : OrderResp) (db2 : DB),
      placeOrder db req = (.ok st o, db2) →
      req2.cart_id = req.cart_id →
      truthy req2.user_id = true → truthy req2.cart_id = true →
      (db2.users.filter (fun u => sqlIdEq req2.user_id u.id)).isEmpty = false →
      placeOrder db2 req2 = (.err 404 "Cart not found or not active", db2)) := by
  constructor
  · exact placeOrder_cart_404
  · intro db req req2 st o db2 h hcid h1 h2 h3
    obtain ⟨_, _, h4, _⟩ := placeOrder_ok_inv db req st o db2 h
    subst h4
    apply placeOrder_cart_404 _ _ h1 h2 h3
    rw [hcid]
    exact successState_cart_not_active db req _

/-- Witness for C6 (amended): checking the example cart out twice — the
second call fails with the 404 and changes nothing. -/
theorem cart_missing_or_inactive_both_404_witness :
    placeOrder (placeOrder exampleDB exampleReq).2 exampleReq =
      (.err 404 "Cart not found or not active",
        (placeOrder exampleDB exampleReq).2) :=
  cart_missing_or_inactive_both_404.2 exampleDB exampleReq exampleReq 201
    { id := 1, user_id := .num 1, cart_id := .num 1, total_amount := 3498,
      status := "pending",
      items := [⟨10, "productA", 2, 999, 1998⟩, ⟨11, "productB", 1, 1500, 1500⟩] }
    (placeOrder exampleDB exampleReq).2 (by decide) rfl (by decide) (by decide)
    (by decide)

/-- C3 counterexample: the stock-decrement store operation
(`UPDATE products SET stock_quantity = stock_quantity - ?`) does not fail on
a shortfall — applied to a product with stock 1 and amount 2 it succeeds and
leaves stock −1. -/
theorem stock_decrement_is_unconditional :
    updateProductStock [⟨1, "X", "", 100, 1⟩] 1 2 =
      [⟨1, "X", "", 100, -1⟩] := by
  decide

/-- C3 (amended): across any single POST /orders request, product stock
stays nonnegative: the pre-mutation stock scan refuses any shortfall, and
the schema's per-cart product uniqueness means each product is decremented
at most once, by at most its available stock.  (The decrement statement
itself carries no guard — see the counterexample — so nothing but this
pre-check protects the invariant.) -/
theorem checkout_stock_stays_nonneg (db : DB) (req : OrderReq) (hw : db.wf)
    (hpos : ∀ p ∈ db.products, 0 ≤ p.stock_quantity) :
    ∀ p ∈ (placeOrder db req).2.products, 0 ≤ p.stock_quantity := by
  intro p hp
  rcases placeOrder_cases db req with h | h
  · rw [h] at hp; exact hpos p hp
  · obtain ⟨_, _, _, hnone⟩ := placeOrder_ok_inv db req _ _ _ h
    rw [h] at hp
    simp only [successState] at hp
    rw [applyStockUpdates_eq (cartItemsQuery_pairwise db req.cart_id hw)] at hp
    rw [List.mem_map] at hp
    obtain ⟨q, hq, rfl⟩ := hp
    rw [List.find?_eq_none] at hnone
    cases hfind : (cartItemsQuery db req.cart_id).find?
        (fun it2 => it2.product_id == q.id) with
    | none => simp only [hfind]; exact hpos q hq
    | some it =>
      simp only [hfind]
      have hmem := List.mem_of_find?_eq_some hfind
      have hpid : it.product_id = q.id := by
        have := List.find?_some hfind
        simpa using this
      have hstock : q.stock_quantity = it.stock_quantity :=
        cartItemsQuery_stock_eq db req.cart_id hw.1 it hmem q hq hpid.symm
      have hok : ¬ (it.stock_quantity < it.quantity) := by
        have := hnone it hmem
        simpa using this
      have hq0 := hpos q hq
      omega

/-- Witness for C3 (amended): productA's committed row after the example
checkout still has nonnegative stock. -/
theorem checkout_stock_stays_nonneg_witness :
    (0 : Int) ≤ ProductRow.stock_quantity ⟨10, "productA", "", 999, 3⟩ :=
  checkout_stock_stays_nonneg exampleDB exampleReq (by decide) (by decide)
    ⟨10, "productA", "", 999, 3⟩ (by decide)

/-- C4: once validation reaches the stock scan, any line whose requested
quantity exceeds the available stock makes checkout fail with 400
"Insufficient stock" carrying the offending line's product name, available
stock and requested quantity — and the database is returned unchanged, so no
stock is decremented for any line of the cart, sufficient or not. -/
theorem insufficient_stock_aborts_whole_cart (db : DB) (req : OrderReq)
    (hpre : preStockChecksPass db req = true)
    (hshort : ∃ x ∈ cartItemsQuery db req.cart_id,
      x.stock_quantity < x.quantity) :
    ∃ it ∈ cartItemsQuery db req.cart_id,
      it.stock_quantity < it.quantity ∧
      placeOrder db req =
        (.errStock 400 "Insufficient stock" it.product_name
          it.stock_quantity it.quantity, db) := by
  have hsome : ((cartItemsQuery db req.cart_id).find?
      (fun x => x.stock_quantity < x.quantity)).isSome := by
    rw [List.find?_isSome]
    obtain ⟨x, hx, hlt⟩ := hshort
    exact ⟨x, hx, by simpa using hlt⟩
  obtain ⟨it, hit⟩ := Option.isSome_iff_exists.mp hsome
  refine ⟨it, List.mem_of_find?_eq_some hit, ?_,
    placeOrder_stock_err db req it hpre hit⟩
  have := List.find?_some hit
  simpa using this

/-- Witness for C4: the short-stock checkout leaves the database unchanged —
no stock is decremented for either line. -/
theorem insufficient_stock_aborts_whole_cart_witness :
    (placeOrder shortStockDB exampleReq).2 = shortStockDB := by
  obtain ⟨it, _, _, heq⟩ := insufficient_stock_aborts_whole_cart shortStockDB
    exampleReq (by decide)
    ⟨⟨10, 2, 999, "productA", 1, 1998⟩, by decide, by decide⟩
  rw [heq]

/-- C9: when several lines are short, the error names exactly the first
short line in cart-item iteration order; later short lines go unreported. -/
theorem insufficient_stock_reports_first (db : DB) (req : OrderReq)
    (pre post : List CartLineJoin) (it : CartLineJoin)
    (hpre : preStockChecksPass db req = true)
    (hsplit : cartItemsQuery db req.cart_id = pre ++ it :: post)
    (hok : ∀ y ∈ pre, ¬ y.stock_quantity < y.quantity)
    (hshort : it.stock_quantity < it.quantity) :
    (placeOrder db req).1 =
      .errStock 400 "Insufficient stock" it.product_name it.stock_quantity
        it.quantity := by
  have hfind : (cartItemsQuery db req.cart_id).find?
      (fun x => x.stock_quantity < x.quantity) = some it := by
    rw [hsplit, List.find?_append]
    have hpre0 : pre.find? (fun x => x.stock_quantity < x.quantity) = none := by
      rw [List.find?_eq_none]
      intro x hx
      simpa using hok x hx
    rw [hpre0, Option.none_or, List.find?_cons_of_pos _ (by simpa using hshort)]
  rw [placeOrder_stock_err db req it hpre hfind]

/-- Witness for C9: in the short-stock database both lines are short, and
the error names productA (the first line), not productB. -/
theorem insufficient_stock_reports_first_witness :
    (placeOrder shortStockDB exampleReq).1 =
      .errStock 400 "Insufficient stock" "productA" 1 2 :=
  insufficient_stock_reports_first shortStockDB exampleReq []
    [⟨11, 1, 1500, "productB", 0, 1500⟩] ⟨10, 2, 999, "productA", 1, 1998⟩
    (by decide) (by decide) (by decide) (by decide)

/-- C2 counterexample: the checkout of two dime lines (0.10 and 0.20)
succeeds, but the total the handler computes before formatting is the binary
floating-point sum of the parsed subtotals, and that value differs from the
exact decimal sum 0.30 — the computation is not exact decimal arithmetic.
(The 2-decimal formatting still lands on 0.30 here.) -/
theorem checkout_total_uses_binary_float :
    (placeOrder dimeDB dimeReq).1.isOk = true ∧
    ¬ (totalAmountFP ((cartItemsQuery dimeDB dimeReq.cart_id).map
        (fun it => it.subtotal))).eqFrac 30 100 ∧
    (totalAmountFP ((cartItemsQuery dimeDB dimeReq.cart_id).map
        (fun it => it.subtotal))).toFixed2 = 30 :=
  ⟨by decide, by decide, by decide⟩

/-- C2 (amended): for every successful checkout, each line subtotal is the
exact `quantity × price-at-addition` (SQL DECIMAL arithmetic, in cents), but
the order total is their binary floating-point sum — `parseFloat` plus the
JS `+` accumulator — formatted to 2 decimal places by `toFixed(2)` in the
response and rounded to 2 decimal places by the DECIMAL(10,2) column in the
stored row; the order lines' quantities echo the cart's line quantities
exactly. -/
theorem checkout_total_float_sum (db : DB) (req : OrderReq) (st : Nat)
    (o : OrderResp) (db2 : DB) (h : placeOrder db req = (.ok st o, db2)) :
    o.total_amount = (totalAmountFP ((cartItemsQuery db req.cart_id).map
        (fun it => it.subtotal))).toFixed2 ∧
    (∀ it ∈ cartItemsQuery db req.cart_id,
      it.subtotal = it.quantity * it.price_at_addition) ∧
    o.items.map (fun i => i.quantity) =
      (cartItemsQuery db req.cart_id).map (fun it => it.quantity) ∧
    (∃ r, db2.orders = db.orders ++ [r] ∧
      r.total_amount = (totalAmountFP ((cartItemsQuery db req.cart_id).map
        (fun it => it.subtotal))).mysqlRound2) := by
  obtain ⟨_, h2, h3, _⟩ := placeOrder_ok_inv db req st o db2 h
  subst h2 h3
  refine ⟨rfl, cartItemsQuery_subtotal db req.cart_id, ?_, ⟨_, rfl, rfl⟩⟩
  simp [successResponse, List.map_map]

/-- Witness for C2 (amended): the dime checkout's response total is the
formatted float sum. -/
theorem checkout_total_float_sum_witness :
    ({ id := 1, user_id := JSVal.num 1, cart_id := JSVal.num 1,
       total_amount := 30, status := "pending",
       items := [⟨10, "dimeA", 1, 10, 10⟩, ⟨11, "dimeB", 1, 20, 20⟩] } :
      OrderResp).total_amount =
      (totalAmountFP ((cartItemsQuery dimeDB dimeReq.cart_id).map
        CartLineJoin.subtotal)).toFixed2 :=
  (checkout_total_float_sum dimeDB dimeReq 201
    { id := 1, user_id := JSVal.num 1, cart_id := JSVal.num 1,
      total_amount := 30, status := "pending",
      items := [⟨10, "dimeA", 1, 10, 10⟩, ⟨11, "dimeB", 1, 20, 20⟩] }
    (placeOrder dimeDB dimeReq).2 (by decide)).1

/-- C5: a successful checkout inserts the order in state `pending` with the
computed total, inserts one order line per cart line copying product name,
quantity and price-at-addition with subtotal = quantity × price, decrements
each joined product's stock by exactly its line quantity, and flips the cart
to `ordered`; the spec's example cart — (qty 2, 9.99) and (qty 1, 15.00) —
yields total 34.98 with subtotals 19.98 and 15.00, stock −2 and −1, cart
`ordered`. -/
theorem checkout_success_effects :
    (∀ (db : DB) (req : OrderReq) (st : Nat) (o : OrderResp) (db2 : DB),
      db.wf → placeOrder db req = (.ok st o, db2) →
      st = 201 ∧ o.status = "pending" ∧
      db2.orders = db.orders ++
        [{ id := db.next_order_id
           user_id := mysqlIntOfVal req.user_id
           cart_id := mysqlIntOfVal req.cart_id
           total_amount := (totalAmountFP
             ((cartItemsQuery db req.cart_id).map
               (fun it => it.subtotal))).mysqlRound2
           status := "pending"
           shipping_address := req.shipping_address
           payment_method := req.payment_method }] ∧
      db2.order_items = db.order_items ++
        (cartItemsQuery db req.cart_id).map (fun it =>
          { order_id := db.next_order_id
            product_id := it.product_id
            product_name := it.product_name
            quantity := it.quantity
            price := it.price_at_addition
            subtotal := it.quantity * it.price_at_addition }) ∧
      db2.products = db.products.map (fun p =>
        match (cartItemsQuery db req.cart_id).find?
            (fun it => it.product_id == p.id) with
        | some it => { p with stock_quantity := p.stock_quantity - it.quantity }
        | none => p) ∧
      db2.carts = db.carts.map (fun c =>
        if sqlIdEq req.cart_id c.id then { c with status := "ordered" }
        else c)) ∧
    placeOrder exampleDB exampleReq =
      (.ok 201
        { id := 1, user_id := .num 1, cart_id := .num 1,
          total_amount := 3498, status := "pending",
          items := [⟨10, "productA", 2, 999, 1998⟩,
                    ⟨11, "productB", 1, 1500, 1500⟩] },
       { users := [⟨1⟩]
         products := [⟨10, "productA", "", 999, 3⟩,
                      ⟨11, "productB", "", 1500, 2⟩]
         carts := [⟨1, 1, "ordered"⟩]
         cart_items := [⟨1, 10, 2, 999⟩, ⟨1, 11, 1, 1500⟩]
         orders := [⟨1, 1, 1, 3498, "pending", some "addr", some "card"⟩]
         order_items := [⟨1, 10, "productA", 2, 999, 1998⟩,
                         ⟨1, 11, "productB", 1, 1500, 1500⟩]
         next_order_id := 2 }) := by
  constructor
  · intro db req st o db2 hw h
    obtain ⟨h1, h2, h3, _⟩ := placeOrder_ok_inv db req st o db2 h
    subst h3
    refine ⟨h1, by rw [h2]; rfl, ?_, ?_, ?_, rfl⟩
    · rfl
    · show (successState db req (cartItemsQuery db req.cart_id)).order_items = _
      unfold successState
      simp only []
      congr 1
      apply List.map_congr_left
      intro it hit
      rw [cartItemsQuery_subtotal db req.cart_id it hit]
    · show (successState db req (cartItemsQuery db req.cart_id)).products = _
      unfold successState
      simp only []
      exact applyStockUpdates_eq
        (cartItemsQuery_pairwise db req.cart_id hw) db.products
  · decide

/-- Witness for C5: the example checkout run through the general clause —
the committed cart list is the status-flipped map of the original carts. -/
theorem checkout_success_effects_witness :
    (placeOrder exampleDB exampleReq).2.carts = [⟨1, 1, "ordered"⟩] :=
  ((checkout_success_effects.1 exampleDB exampleReq 201
    { id := 1, user_id := .num 1, cart_id := .num 1, total_amount := 3498,
      status := "pending",
      items := [⟨10, "productA", 2, 999, 1998⟩,
                ⟨11, "productB", 1, 1500, 1500⟩] }
    (placeOrder exampleDB exampleReq).2 (by decide)
    (by decide)).2.2.2.2.2).trans (by decide)

/-- C8: the success path's only mutations are the appended order row, the
appended order_items rows, the stock of products joined to the cart's lines,
and the cart's status: users and cart_items are returned verbatim — the
cart's lines survive checkout intact — every product keeps its id, name,
description and price, a product matched by no cart line keeps its stock,
every cart keeps its id and owner, and a cart not matching the request id is
fully unchanged. -/
theorem checkout_frame (db : DB) (req : OrderReq) (st : Nat) (o : OrderResp)
    (db2 : DB) (h : placeOrder db req = (.ok st o, db2)) :
    db2.users = db.users ∧
    db2.cart_items = db.cart_items ∧
    db2.products.map (fun p => (p.id, p.name, p.description, p.price)) =
      db.products.map (fun p => (p.id, p.name, p.description, p.price)) ∧
    (∀ p ∈ db.products,
      (∀ it ∈ cartItemsQuery db req.cart_id, it.product_id ≠ p.id) →
      p ∈ db2.products) ∧
    db2.carts.map (fun c => (c.id, c.user_id)) =
      db.carts.map (fun c => (c.id, c.user_id)) ∧
    (∀ c ∈ db.carts, sqlIdEq req.cart_id c.id = false → c ∈ db2.carts) ∧
    (∃ r, db2.orders = db.orders ++ [r]) ∧
    (∃ rows, db2.order_items = db.order_items ++ rows) := by
  obtain ⟨_, _, h3, _⟩ := placeOrder_ok_inv db req st o db2 h
  subst h3
  refine ⟨rfl, rfl, applyStockUpdates_proj _ db.products, ?_, ?_, ?_,
    ⟨_, rfl⟩, ⟨_, rfl⟩⟩
  · intro p hp hno
    exact applyStockUpdates_untouched _ db.products p hp hno
  · show (db.carts.map (fun c => if sqlIdEq req.cart_id c.id then
        { c with status := "ordered" } else c)).map
        (fun c => (c.id, c.user_id)) = _
    rw [List.map_map]
    apply List.map_congr_left
    intro c _
    by_cases hcid : (sqlIdEq req.cart_id c.id) = true
    · simp only [Function.comp, if_pos hcid]
    · simp only [Function.comp, if_neg hcid]
  · intro c hc hcid
    show c ∈ db.carts.map (fun c => if sqlIdEq req.cart_id c.id then
      { c with status := "ordered" } else c)
    have hfc : (fun c => if sqlIdEq req.cart_id c.id then
        { c with status := "ordered" } else c) c = c := by
      simp [hcid]
    exact hfc ▸ List.mem_map_of_mem _ hc

/-- Witness for C8: after the example checkout the cart's lines are still
present, verbatim. -/
theorem checkout_frame_witness :
    (placeOrder exampleDB exampleReq).2.cart_items = exampleDB.cart_items :=
  (checkout_frame exampleDB exampleReq 201
    { id := 1, user_id := .num 1, cart_id := .num 1, total_amount := 3498,
      status := "pending",
      items := [⟨10, "productA", 2, 999, 1998⟩,
                ⟨11, "productB", 1, 1500, 1500⟩] }
    (placeOrder exampleDB exampleReq).2 (by decide)).2.1

/-- C7: PUT /orders/:id/status accepts exactly pending / processing /
shipped / delivered / cancelled: any other status value is rejected with 400
and no order is mutated; a valid status with no matching order answers 404
with no change; a valid status on an existing order rewrites exactly that
order's status and answers 200. -/
theorem update_order_status_spec :
    validStatuses =
      ["pending", "processing", "shipped", "delivered", "cancelled"] ∧
    (∀ (db : DB) (oid : Int) (st : String),
      (validStatuses.contains st = false →
        updateOrderStatus db oid st = (.err 400 "Invalid status", db)) ∧
      (validStatuses.contains st = true →
        (db.orders.filter (fun o => o.id == oid) = [] →
          updateOrderStatus db oid st = (.err 404 "Order not found", db)) ∧
        ((db.orders.filter (fun o => o.id == oid)).isEmpty = false →
          updateOrderStatus db oid st =
            (.ok 200 st, { db with orders := db.orders.map (fun o =>
              if o.id == oid then { o with status := st } else o) })))) := by
  refine ⟨rfl, ?_⟩
  intro db oid st
  constructor
  · intro hbad
    unfold updateOrderStatus
    rw [if_pos (by rw [hbad]; rfl)]
  · intro hgood
    constructor
    · intro hnil
      have hmapid : db.orders.map (fun o =>
          if o.id == oid then { o with status := st } else o) = db.orders := by
        rw [List.filter_eq_nil_iff] at hnil
        have hpt : ∀ o ∈ db.orders, (if o.id == oid then
            { o with status := st } else o) = o := by
          intro o ho
          rw [if_neg (by simpa using hnil o ho)]
        rw [List.map_congr_left hpt, List.map_id']
      unfold updateOrderStatus
      simp only [hgood, Bool.not_true, Bool.false_eq_true, if_false, hnil,
        hmapid, List.isEmpty_nil, if_true]
    · intro hne
      unfold updateOrderStatus
      simp only [hgood, Bool.not_true, Bool.false_eq_true, if_false, hne]

/-- Witness for C7: on a one-order database, a junk status is rejected, an
unknown id gives 404, and a valid update succeeds. -/
theorem update_order_status_spec_witness :
    updateOrderStatus orderDB 1 "junk" = (.err 400 "Invalid status", orderDB) ∧
    updateOrderStatus orderDB 9 "shipped" =
      (.err 404 "Order not found", orderDB) ∧
    updateOrderStatus orderDB 1 "shipped" =
      (.ok 200 "shipped", { orderDB with
        orders := [⟨1, 1, 1, 3498, "shipped", none, none⟩] }) :=
  ⟨(update_order_status_spec.2 orderDB 1 "junk").1 (by decide),
   ((update_order_status_spec.2 orderDB 9 "shipped").2 (by decide)).1 (by decide),
   (((update_order_status_spec.2 orderDB 1 "shipped").2 (by decide)).2
     (by decide)).trans (by decide)⟩
